import Mathlib

/-!
Verification development for the connection-descriptor resolution engine of
src/azure/Kqlmagic/kql_engine.py.

The resolver `_parse_common_connection_str` (lines 100-207) is embedded as a
chain of pure Lean functions, one per step of the source, threading the
mutable Python state (`parsed_conn_kv`, `matched_keys_set`) explicitly.
Python dictionaries are association lists with insertion order; Python sets
of keys are lists used only through membership, intersection, difference and
length.  The interactive secret prompt (`getpass.getpass`) and the
certificate file reader are injected as function parameters, and the list of
prompt messages issued is recorded in the result so that prompting behaviour
is observable.  Errors mirror the two Python exception kinds: `ValueError`
for the unknown-key check and `KqlEngineError` for everything else.
-/

/-- The quote character (codepoint 39) used by the value syntax. -/
def qc : Char := '\x27'

/-- The quote character as a one-character string. -/
def qs : String := String.singleton qc

namespace ConnStrKeys

/-- Modelled from the spec: the key vocabulary used by the resolver.  The
module `Kqlmagic/constants.py` defining `ConnStrKeys` is not under src/; the
spec names these keys in its data model and examples. -/
def TENANT : String := "tenant"

def USERNAME : String := "username"

def CLIENTID : String := "clientid"

def CERTIFICATE : String := "certificate"

def CLIENTSECRET : String := "clientsecret"

def APPKEY : String := "appkey"

def PASSWORD : String := "password"

def CERTIFICATE_THUMBPRINT : String := "certificate_thumbprint"

def CLUSTER : String := "cluster"

def DATABASE : String := "database"

def ALIAS : String := "alias"

def CODE : String := "code"

def ANONYMOUS : String := "anonymous"

def CERTIFICATE_PEM_FILE : String := "certificate_pem_file"

end ConnStrKeys

/-- A Python dictionary from key to string value: an association list with
insertion order and unique keys. -/
abbrev KV := List (String × String)

/-- Dictionary lookup: `d.get(k)`. -/
def kvGet (kv : KV) (k : String) : Option String :=
  (kv.find? (fun p => p.1 == k)).map (·.2)

/-- Dictionary update `d[k] = v`: overwrite in place, or append. -/
def kvSet (kv : KV) (k v : String) : KV :=
  if kv.any (fun p => p.1 == k) then
    kv.map (fun p => if p.1 == k then (k, v) else p)
  else
    kv ++ [(k, v)]

/-- Dictionary deletion `del d[k]`. -/
def kvDel (kv : KV) (k : String) : KV :=
  kv.filter (fun p => p.1 != k)

/-- The key list of a dictionary, in insertion order. -/
def kvKeys (kv : KV) : List String :=
  kv.map (·.1)

/-- Set intersection `a.intersection(b)` on key sets. -/
def listInter (a b : List String) : List String :=
  a.filter (fun k => decide (k ∈ b))

/-- Set difference `a.difference(b)` on key sets. -/
def listDiff (a b : List String) : List String :=
  a.filter (fun k => decide (k ∉ b))

/-- Subset test `a.issubset(b)` on key sets. -/
def subsetOf (a b : List String) : Bool :=
  a.all (fun k => decide (k ∈ b))

/-- Source line 83-92: `_CREDENTIAL_KEYS`. -/
def CREDENTIAL_KEYS : List String :=
  [ConnStrKeys.TENANT, ConnStrKeys.USERNAME, ConnStrKeys.CLIENTID,
   ConnStrKeys.CERTIFICATE, ConnStrKeys.CLIENTSECRET, ConnStrKeys.APPKEY,
   ConnStrKeys.PASSWORD, ConnStrKeys.CERTIFICATE_THUMBPRINT]

/-- Source line 93: `_SECRET_KEYS`. -/
def SECRET_KEYS : List String :=
  [ConnStrKeys.CLIENTSECRET, ConnStrKeys.APPKEY, ConnStrKeys.PASSWORD,
   ConnStrKeys.CERTIFICATE_THUMBPRINT]

/-- Source line 94: `_NOT_INHERITABLE_KEYS`. -/
def NOT_INHERITABLE_KEYS : List String :=
  [ConnStrKeys.APPKEY, ConnStrKeys.ALIAS]

/-- Source line 95: `_OPTIONAL_KEYS`. -/
def OPTIONAL_KEYS : List String :=
  [ConnStrKeys.TENANT, ConnStrKeys.ALIAS]

/-- Source line 96: `_INHERITABLE_KEYS`. -/
def INHERITABLE_KEYS : List String :=
  [ConnStrKeys.CLUSTER, ConnStrKeys.TENANT]

/-- Source line 97: `_EXCLUDE_FROM_URL_KEYS`. -/
def EXCLUDE_FROM_URL_KEYS : List String :=
  [ConnStrKeys.DATABASE, ConnStrKeys.ALIAS]

/-- Source line 98: `_SHOULD_BE_NULL_KEYS`. -/
def SHOULD_BE_NULL_KEYS : List String :=
  [ConnStrKeys.CODE, ConnStrKeys.ANONYMOUS]

/-- The placeholder form of a key: `<key>` (source lines 185, 196). -/
def placeholder (k : String) : String :=
  "<" ++ k ++ ">"

/-- Python `o or d` on an optional string: the empty string and None are
falsy and yield the default. -/
def pyOr (o : Option String) (d : String) : String :=
  match o with
  | some v => if v = "" then d else v
  | none => d

/-- Python truthiness of an optional string. -/
def pyTruthyOpt (o : Option String) : Bool :=
  match o with
  | some v => v != ""
  | none => false

/-- Python string formatting of an optional value: None prints as None. -/
def pyStrOpt (o : Option String) : String :=
  match o with
  | some v => v
  | none => "None"

/-- One URL fragment (source line 205): the format string rendering a key
with its quoted value. -/
def fmtItem (k v : String) : String :=
  k ++ "(" ++ qs ++ v ++ qs ++ ")"

/-- Source lines 202-205: the URL fragments of the selected combination, in
combination order, skipping `_EXCLUDE_FROM_URL_KEYS`. -/
def urlParts (conn_keys_list : List String) (kv : KV) : List String :=
  (conn_keys_list.filter (fun k => decide (k ∉ EXCLUDE_FROM_URL_KEYS))).map
    (fun k => fmtItem k (pyStrOpt (kvGet kv k)))

/-- Source line 206: the canonical bind URL. -/
def mkBindUrl (uri_schema_name : String) (conn_keys_list : List String) (kv : KV) : String :=
  uri_schema_name ++ "://" ++ String.intercalate "." (urlParts conn_keys_list kv)

/-- Source lines 50-54 (`get_conn_name`): alias-or-database at cluster. -/
def connName (alias0 database_name : Option String) (cluster_name : String) : String :=
  (match alias0 with
   | some a => if a = "" then pyStrOpt database_name else a
   | none => pyStrOpt database_name) ++ "@" ++ cluster_name

/-- Source line 198: the prompt message passed to `getpass.getpass`. -/
def promptMsg (name s : String) : String :=
  "connection to " ++ name ++ " requires " ++ s ++ ", please enter " ++ s ++ ": "

/-- The failure outcomes of the resolver.  `unknownKeys` embeds the
`ValueError` of source line 122 (the ConnectionFormatError kind of the spec);
`parseFailure` embeds a tokenizer rejection; every other constructor embeds a
`KqlEngineError` (the ConnectionResolutionError kind). -/
inductive ResolveError where
  | unknownKeys (keys : List String)
  | parseFailure (rest : String)
  | mandatoryMissing (key : String)
  | credentialConflict
  | noValidCombination
  | missingKeys (keys : List String)
  | missingTenant
  | mustBeEmpty (key : String)
  | emptyOrPlaceholder (key : String)
  | connNameUndefined
  deriving DecidableEq

/-- The spec distinguishes ConnectionFormatError (lexical or vocabulary
errors, Python `ValueError`) from ConnectionResolutionError (Python
`KqlEngineError`). -/
def isConnectionFormatError : ResolveError → Bool
  | .unknownKeys _ => true
  | .parseFailure _ => true
  | _ => false

/-- The successful outcome of the resolver: the returned `parsed_conn_kv`
dictionary, the selected combination, the engine attributes set on self
(source lines 189-191 and 206), and the list of prompt messages issued. -/
structure ResolveOk where
  parsed_conn : KV
  combination : List String
  cluster_name : String
  database_name : Option String
  alias0 : Option String
  bind_url : String
  prompts : List String
  deriving DecidableEq

/-- Packaging of a successful resolution (source lines 189-191, 202-207). -/
def mkResult (uri_schema_name : String) (conn_keys_list : List String) (kv : KV)
    (cluster_name : String) (database_name alias0 : Option String)
    (prompts : List String) : ResolveOk :=
  { parsed_conn := kv
    combination := conn_keys_list
    cluster_name := cluster_name
    database_name := database_name
    alias0 := alias0
    bind_url := mkBindUrl uri_schema_name conn_keys_list kv
    prompts := prompts }

/-- Source lines 109-114: replace `certificate_pem_file` by `certificate`
holding the file contents, the reader being an injected collaborator. -/
def applyPem (readFileFn : String → String) (kv : KV) : KV :=
  match kvGet kv ConnStrKeys.CERTIFICATE_PEM_FILE with
  | some pem_file_name =>
      kvDel (kvSet kv ConnStrKeys.CERTIFICATE (readFileFn pem_file_name))
        ConnStrKeys.CERTIFICATE_PEM_FILE
  | none => kv

/-- Source lines 180-186: whether a matched key fails the value-shape check
(must-be-empty keys must be empty, other non-secret keys must be neither
empty nor the placeholder). -/
def badValueKey (kv : KV) (k : String) : Bool :=
  if k ∈ SHOULD_BE_NULL_KEYS then
    kvGet kv k != some ""
  else if k ∉ SECRET_KEYS then
    (kvGet kv k == some (placeholder k)) || (kvGet kv k == some "")
  else
    false

/-- Source lines 170-207, after the selected combination is fixed: the
required-key completeness check, the tenant special case, the value-shape
checks, the attribute extraction, the secret prompt and the URL synthesis. -/
def checksAndFinish (uri_schema_name mandatory_key : String) (prompt : String → String)
    (conn_keys_list conn_keys_set : List String) (kv : KV) (matched : List String) :
    Except ResolveError ResolveOk :=
  let secret_key_set := listInter SECRET_KEYS conn_keys_set
  let missing_set := listDiff (listDiff (listDiff conn_keys_set matched) secret_key_set) OPTIONAL_KEYS
  if missing_set ≠ [] then
    .error (.missingKeys missing_set)
  else if kvGet kv ConnStrKeys.TENANT = none ∧ ConnStrKeys.CLIENTID ∈ conn_keys_set then
    .error .missingTenant
  else
    match matched.find? (fun k => badValueKey kv k) with
    | some k =>
        if k ∈ SHOULD_BE_NULL_KEYS then .error (.mustBeEmpty k)
        else .error (.emptyOrPlaceholder k)
    | none =>
        let cluster_name := pyOr (kvGet kv ConnStrKeys.CLUSTER) uri_schema_name
        let database_name := kvGet kv mandatory_key
        let alias0 := kvGet kv ConnStrKeys.ALIAS
        if secret_key_set.length = 1 then
          let s := secret_key_set.headD ""
          if s ∉ matched ∨ kvGet kv s = some (placeholder s) then
            if pyTruthyOpt database_name = true ∧ cluster_name ≠ "" then
              let name := connName alias0 database_name cluster_name
              let msg := promptMsg name s
              .ok (mkResult uri_schema_name conn_keys_list (kvSet kv s (prompt msg))
                    cluster_name database_name alias0 [msg])
            else
              .error .connNameUndefined
          else
            .ok (mkResult uri_schema_name conn_keys_list kv cluster_name database_name alias0 [])
        else
          .ok (mkResult uri_schema_name conn_keys_list kv cluster_name database_name alias0 [])

/-- Source lines 163-168: copy each still-missing inheritable key from the
current connection when present there. -/
def inheritFrom (cur : KV) (inherit_keys_set : List String) (kv : KV) (matched : List String) :
    KV × List String :=
  inherit_keys_set.foldl
    (fun acc k =>
      match kvGet cur k with
      | some v => (kvSet acc.1 k v, acc.2 ++ [k])
      | none => acc)
    (kv, matched)

/-- Source lines 158-207: with the selected combination fixed, run the
second inheritance pass (only when more than one inheritable key is missing)
and then the final checks. -/
def withCombination (uri_schema_name mandatory_key : String) (current : Option KV)
    (prompt : String → String) (conn_keys_list : List String) (kv : KV)
    (matched : List String) : Except ResolveError ResolveOk :=
  let conn_keys_set := conn_keys_list.eraseDups
  let inherit_keys_set := listDiff (listInter INHERITABLE_KEYS conn_keys_set) matched
  let st :=
    if 1 < inherit_keys_set.length then
      match current with
      | some cur => inheritFrom cur inherit_keys_set kv matched
      | none => (kv, matched)
    else (kv, matched)
  checksAndFinish uri_schema_name mandatory_key prompt conn_keys_list conn_keys_set st.1 st.2

/-- Source lines 142-156: at most one combination may remain; among several,
the last one with exactly 3 keys is taken, and the absence of such a
combination is an error. -/
def afterMerge (uri_schema_name mandatory_key : String) (current : Option KV)
    (prompt : String → String) (valid_combinations : List (List String)) (kv : KV)
    (matched : List String) : Except ResolveError ResolveOk :=
  if valid_combinations.length = 0 then
    .error .noValidCombination
  else
    let conn_keys_list? :=
      if 1 < valid_combinations.length then
        (valid_combinations.filter (fun c => c.length = 3)).getLast?
      else
        valid_combinations.head?
    match conn_keys_list? with
    | none => .error .noValidCombination
    | some conn_keys_list =>
        withCombination uri_schema_name mandatory_key current prompt conn_keys_list kv matched

/-- Source lines 133-136: merge every key of the current connection that is
absent from the matched set and not in `_NOT_INHERITABLE_KEYS`. -/
def mergeCurrent (cur : KV) (kv : KV) (matched : List String) : KV × List String :=
  cur.foldl
    (fun acc p =>
      if p.1 ∉ acc.2 ∧ p.1 ∉ NOT_INHERITABLE_KEYS then
        (kvSet acc.1 p.1 p.2, acc.2 ++ [p.1])
      else acc)
    (kv, matched)

/-- Source lines 137-139: some credential key of the matched set has a value
differing from the value the current connection holds for it (absence in the
current connection counts as a differing value, None). -/
def credentialConflictExists (cur : KV) (kv : KV) (matched : List String) : Bool :=
  (listInter CREDENTIAL_KEYS matched).any (fun k => kvGet kv k != kvGet cur k)

/-- Source lines 129-156: the disambiguation passes after the first
candidate filter.  When several candidates remain and a current connection
exists, its values are merged in, credentials are compared, and the
candidates are filtered again by the merged key set (line 140 runs
unconditionally). -/
def afterFilter (uri_schema_name mandatory_key : String) (current : Option KV)
    (prompt : String → String) (valid_combinations : List (List String)) (kv : KV)
    (matched : List String) : Except ResolveError ResolveOk :=
  if 1 < valid_combinations.length then
    match current with
    | some cur =>
        let st := mergeCurrent cur kv matched
        if credentialConflictExists cur st.1 st.2 then
          .error .credentialConflict
        else
          afterMerge uri_schema_name mandatory_key current prompt
            (valid_combinations.filter (fun c => subsetOf st.2 c)) st.1 st.2
    | none =>
        afterMerge uri_schema_name mandatory_key current prompt
          (valid_combinations.filter (fun c => subsetOf matched c)) kv matched
  else
    afterMerge uri_schema_name mandatory_key current prompt
      (valid_combinations.filter (fun c => subsetOf matched c)) kv matched

/-- Source line 119: the legal key vocabulary, the union of all offered
combinations. -/
def allKeysOf (valid_keys_combinations : List (List String)) : List String :=
  valid_keys_combinations.flatten.eraseDups

/-- Source lines 100-207 (`_parse_common_connection_str`) from the point
where the key/value dictionary is available: certificate indirection,
unknown-key check, mandatory-key check, candidate filter, then the
disambiguation and finishing stages. -/
def parse_common_connection_str (uri_schema_name mandatory_key : String)
    (valid_keys_combinations : List (List String)) (current : Option KV)
    (prompt readFileFn : String → String) (kv0 : KV) : Except ResolveError ResolveOk :=
  let kv1 := applyPem readFileFn kv0
  let matched := kvKeys kv1
  let unknown := listDiff matched (allKeysOf valid_keys_combinations)
  if unknown ≠ [] then
    .error (.unknownKeys unknown)
  else if mandatory_key ∉ matched then
    .error (.mandatoryMissing mandatory_key)
  else
    afterFilter uri_schema_name mandatory_key current prompt
      (valid_keys_combinations.filter (fun c => subsetOf matched c)) kv1 matched

/-- Consume characters of a quoted value up to the closing quote-parenthesis
pair, returning the value and the remaining characters. -/
def takeVal : List Char → Option (List Char × List Char)
  | [] => none
  | c :: rest =>
      if c = qc ∧ rest.head? = some ')' then
        some ([], rest.tail)
      else
        match takeVal rest with
        | none => none
        | some (v, r) => some (c :: v, r)

/-- Modelled from the spec: the item grammar of the key/value body, a
sequence of key quoted-value items separated by dots (spec section 6). -/
def parseItems : Nat → List Char → Option (List (String × String))
  | 0, _ => none
  | _ + 1, [] => some []
  | fuel + 1, cs =>
      let key := cs.takeWhile (fun c => c != '(')
      match cs.drop key.length with
      | '(' :: rest1 =>
          if rest1.head? = some qc then
            match takeVal rest1.tail with
            | some (v, r) =>
                if key.isEmpty then none
                else
                  match r with
                  | [] => some [(String.mk key, String.mk v)]
                  | c :: r2 =>
                      if c = '.' then
                        (parseItems fuel r2).map (fun kvs => (String.mk key, String.mk v) :: kvs)
                      else none
            | none => none
          else none
      | _ => none

/-- Modelled from the spec: `Parser.parse_and_get_kv_string` of
`Kqlmagic/parser.py` is not under src/; the spec treats it as an opaque
tokenizer taking the body to a key-to-value mapping, with the body grammar
key quoted-value items joined by dots.  Substitution from the user namespace
is not modelled.  Later items override earlier ones as in a dictionary. -/
def parse_and_get_kv_string (rest : String) : Except ResolveError KV :=
  match parseItems (rest.length + 1) rest.data with
  | some items => .ok (items.foldl (fun kv p => kvSet kv p.1 p.2) [])
  | none => .error (.parseFailure rest)

/-- Drop everything up to and including the first occurrence of the
scheme separator colon-slash-slash. -/
def dropThroughSep : List Char → Option (List Char)
  | ':' :: '/' :: '/' :: rest => some rest
  | _ :: rest => dropThroughSep rest
  | [] => none

/-- Python `str.strip()`: drop whitespace from both ends. -/
def pyStrip (cs : List Char) : List Char :=
  ((cs.dropWhile Char.isWhitespace).reverse.dropWhile Char.isWhitespace).reverse

/-- Source line 104: `conn_str[conn_str.find("://")+3:].strip()`; when the
separator is absent, Python find yields -1 and the slice starts at 2. -/
def stripSchemaPart (conn_str : String) : String :=
  match dropThroughSep conn_str.data with
  | some rest => String.mk (pyStrip rest)
  | none => String.mk (pyStrip (conn_str.data.drop 2))

/-- The resolver on a whole connection string: body extraction, tokenizing,
then `parse_common_connection_str`. -/
def resolveConnStr (conn_str uri_schema_name mandatory_key : String)
    (valid_keys_combinations : List (List String)) (current : Option KV)
    (prompt readFileFn : String → String) : Except ResolveError ResolveOk :=
  match parse_and_get_kv_string (stripSchemaPart conn_str) with
  | .error e => .error e
  | .ok kv0 =>
      parse_common_connection_str uri_schema_name mandatory_key valid_keys_combinations
        current prompt readFileFn kv0

/-- Source lines 14-26: the engine state touched by `__init__` and
`__eq__`; the client handle is opaque. -/
structure KqlEngine where
  bind_url : Option String
  parsed_conn : KV
  database_name : Option String
  cluster_name : Option String
  alias0 : Option String
  client : Option String
  validated : Option Bool
  deriving DecidableEq

/-- Source lines 17-26 (`__init__`): every field starts unset. -/
def KqlEngine.init : KqlEngine :=
  { bind_url := none, parsed_conn := [], database_name := none, cluster_name := none,
    alias0 := none, client := none, validated := none }

/-- Source lines 28-29 (`__eq__`): `self.bind_url and self.bind_url ==
other.bind_url`.  Python returns the falsy `bind_url` itself (None or the
empty string) when it is unpopulated; the model returns the truthiness of
the returned value. -/
def KqlEngine.eqOp (a b : KqlEngine) : Bool :=
  match a.bind_url with
  | none => false
  | some u => if u = "" then false else b.bind_url == some u

/-! ### Concrete instances used by the example claims -/

/-- The combination registry of the spec example (section 8). -/
def combosSpecExample : List (List String) :=
  [[ConnStrKeys.CLUSTER, ConnStrKeys.DATABASE, ConnStrKeys.TENANT, ConnStrKeys.CLIENTID,
    ConnStrKeys.CERTIFICATE],
   [ConnStrKeys.CLUSTER, ConnStrKeys.DATABASE, ConnStrKeys.USERNAME, ConnStrKeys.PASSWORD]]

/-- The spec example registry with the cluster key removed from the second
combination, the variant under which the stated outputs are reachable. -/
def combosAmendedExample : List (List String) :=
  [[ConnStrKeys.CLUSTER, ConnStrKeys.DATABASE, ConnStrKeys.TENANT, ConnStrKeys.CLIENTID,
    ConnStrKeys.CERTIFICATE],
   [ConnStrKeys.DATABASE, ConnStrKeys.USERNAME, ConnStrKeys.PASSWORD]]

/-- The input connection string of the spec example. -/
def c1Input : String :=
  "foo://" ++ fmtItem ConnStrKeys.DATABASE "d1" ++ "." ++ fmtItem ConnStrKeys.USERNAME "u"
    ++ "." ++ fmtItem ConnStrKeys.PASSWORD "p"

/-- A collaborator function that is never consulted in the example runs. -/
def noFn : String → String := fun _ => ""

/-- A prompt collaborator returning a fixed secret, used in example runs. -/
def pwPrompt : String → String := fun _ => "pw"

/-- The prior connection of the merge-pass counterexample: it lacks the
username credential the new string supplies. -/
def c2cur : KV := [(ConnStrKeys.DATABASE, "d0"), (ConnStrKeys.PASSWORD, "p0")]

/-- The ambiguous registry of the merge-pass counterexample. -/
def c2combos : List (List String) :=
  [[ConnStrKeys.DATABASE, ConnStrKeys.USERNAME, ConnStrKeys.PASSWORD, ConnStrKeys.CLUSTER],
   [ConnStrKeys.DATABASE, ConnStrKeys.USERNAME, ConnStrKeys.PASSWORD]]

/-- The parsed key-values of the merge-pass counterexample. -/
def c2kv : KV := [(ConnStrKeys.DATABASE, "d1"), (ConnStrKeys.USERNAME, "u")]

/-- A connection string whose single key lies outside every combination. -/
def c6Input : String := "foo://" ++ fmtItem "foo" "x"

/-- The parsed key-values of the amended C1 run, input to the resolver. -/
def c3kv0 : KV :=
  [(ConnStrKeys.DATABASE, "d1"), (ConnStrKeys.USERNAME, "u"), (ConnStrKeys.PASSWORD, "p")]

/-- The bind URL produced by the amended C1 run. -/
def c3BindUrl : String :=
  "foo://" ++ fmtItem ConnStrKeys.USERNAME "u" ++ "." ++ fmtItem ConnStrKeys.PASSWORD "p"

/-- The matched key-values of the secret-prompt example: the password of
the selected combination is not yet supplied. -/
def c8kv : KV :=
  [(ConnStrKeys.CLUSTER, "c1"), (ConnStrKeys.DATABASE, "d1"), (ConnStrKeys.USERNAME, "u")]

/-- The selected combination of the secret-prompt example. -/
def c8ckl : List String :=
  [ConnStrKeys.CLUSTER, ConnStrKeys.DATABASE, ConnStrKeys.USERNAME, ConnStrKeys.PASSWORD]

/-- The outcome of the secret-prompt example: the password obtained from
the prompt collaborator is stored and rendered into the bind URL. -/
def c8result : ResolveOk :=
  { parsed_conn := [(ConnStrKeys.CLUSTER, "c1"), (ConnStrKeys.DATABASE, "d1"),
      (ConnStrKeys.USERNAME, "u"), (ConnStrKeys.PASSWORD, "pw")]
    combination := c8ckl
    cluster_name := "c1"
    database_name := some "d1"
    alias0 := none
    bind_url := "foo://" ++ fmtItem ConnStrKeys.CLUSTER "c1" ++ "."
      ++ fmtItem ConnStrKeys.USERNAME "u" ++ "." ++ fmtItem ConnStrKeys.PASSWORD "pw"
    prompts := [promptMsg "d1@c1" ConnStrKeys.PASSWORD] }

/-- The full result of the amended C1 run. -/
def c3okResult : ResolveOk :=
  { parsed_conn := c3kv0
    combination := [ConnStrKeys.DATABASE, ConnStrKeys.USERNAME, ConnStrKeys.PASSWORD]
    cluster_name := "foo"
    database_name := some "d1"
    alias0 := none
    bind_url := c3BindUrl
    prompts := [] }

/-! ### Helper lemmas about the set and dictionary operations -/

theorem mem_listInter {a b : List String} {k : String} :
    k ∈ listInter a b ↔ k ∈ a ∧ k ∈ b := by
  simp [listInter, List.mem_filter]

theorem mem_listDiff {a b : List String} {k : String} :
    k ∈ listDiff a b ↔ k ∈ a ∧ k ∉ b := by
  simp [listDiff, List.mem_filter]

/-! ### C1 -/

/-- C1, counterexample: on the spec example exactly as stated — schema foo,
combinations cluster-database-tenant-clientid-certificate and
cluster-database-username-password, mandatory key database, no prior
connection — the resolver does NOT succeed: the cluster key of the second
combination is neither supplied, secret, optional, nor inherited (the
single-missing-inheritable-key case is not auto-filled), so the
required-key completeness check fails citing cluster. -/
theorem c1_spec_example_fails :
    resolveConnStr c1Input "foo" ConnStrKeys.DATABASE combosSpecExample none noFn noFn
      = .error (.missingKeys [ConnStrKeys.CLUSTER]) := by
  rfl

/-- C1, amended: with the second combination shrunk to
database-username-password (cluster removed), the stated outcome holds:
resolution succeeds, selects the second combination, sets cluster_name to
the schema name foo, and produces exactly the bind URL
foo://username(u).password(p) with the database key excluded. -/
theorem c1_amended_resolution :
    (resolveConnStr c1Input "foo" ConnStrKeys.DATABASE combosAmendedExample none noFn noFn).map
        (fun r => (r.combination, r.cluster_name, r.bind_url))
      = .ok ([ConnStrKeys.DATABASE, ConnStrKeys.USERNAME, ConnStrKeys.PASSWORD], "foo",
          "foo://" ++ fmtItem ConnStrKeys.USERNAME "u" ++ "." ++ fmtItem ConnStrKeys.PASSWORD "p")
    ∧ combosAmendedExample[1]?
      = some [ConnStrKeys.DATABASE, ConnStrKeys.USERNAME, ConnStrKeys.PASSWORD] :=
  ⟨rfl, rfl⟩

/-! ### C9 and C10: the equality operation -/

/-- An engine whose bind URL is the empty string, with a validation flag. -/
def engineEmptyA : KqlEngine :=
  { KqlEngine.init with bind_url := some "", validated := some true }

/-- An engine whose bind URL is the empty string, without validation. -/
def engineEmptyB : KqlEngine :=
  { KqlEngine.init with bind_url := some "" }

/-- C9, counterexample: two engines with equal bind URL strings (both the
empty string) on which the equality operation is nevertheless falsy, because
the source returns the falsy bind_url itself before ever comparing. -/
theorem c9_empty_bind_url_not_equal :
    engineEmptyA.bind_url = engineEmptyB.bind_url
    ∧ KqlEngine.eqOp engineEmptyA engineEmptyB = false :=
  ⟨rfl, rfl⟩

/-- C9, amended: equality between two connections holds exactly when the
first bind_url is a populated, non-empty string and the second bind_url is
the same string; the validated flag, client handle and all other fields
have no effect (the statement mentions bind_url only). -/
theorem c9_amended_equality (a b : KqlEngine) :
    KqlEngine.eqOp a b = true ↔ ∃ u, a.bind_url = some u ∧ u ≠ "" ∧ b.bind_url = some u := by
  unfold KqlEngine.eqOp
  cases ha : a.bind_url with
  | none => simp
  | some u =>
    by_cases hu : u = ""
    · simp [hu]
    · simp [hu, beq_iff_eq]

/-- C10: a connection whose bind_url is still the initial None compares
falsy against every connection, itself included: the equality operation is
not reflexive before resolution populates bind_url. -/
theorem c10_unset_bind_url_never_equal :
    KqlEngine.init.bind_url = none
    ∧ ∀ a b : KqlEngine, a.bind_url = none → KqlEngine.eqOp a b = false := by
  refine ⟨rfl, fun a b h => ?_⟩
  unfold KqlEngine.eqOp
  rw [h]

/-- C10, witness: the freshly initialized engine is not equal to itself. -/
theorem c10_unset_bind_url_never_equal_witness :
    KqlEngine.eqOp KqlEngine.init KqlEngine.init = false :=
  c10_unset_bind_url_never_equal.2 KqlEngine.init KqlEngine.init rfl

/-! ### Dictionary lemmas -/

theorem find?_kvmap (t : KV) (k v : String) (h : t.any (fun p => p.1 == k) = true) :
    kvGet (t.map (fun p => if p.1 == k then (k, v) else p)) k = some v := by
  induction t with
  | nil => simp at h
  | cons p t ih =>
    by_cases hp : p.1 = k
    · simp [kvGet, hp, List.find?_cons_of_pos]
    · have hp' : (p.1 == k) = false := by simp [hp]
      have ht : t.any (fun p => p.1 == k) = true := by
        simpa [hp'] using h
      simpa [kvGet, hp', hp, List.find?_cons_of_neg] using ih ht

theorem find?_append_single (t : KV) (k v : String) (h : t.any (fun p => p.1 == k) = false) :
    kvGet (t ++ [(k, v)]) k = some v := by
  induction t with
  | nil => simp [kvGet]
  | cons p t ih =>
    simp only [List.any_cons, Bool.or_eq_false_iff] at h
    simpa [kvGet, h.1, List.find?_cons_of_neg] using ih h.2

theorem kvGet_kvSet_self (kv : KV) (k v : String) : kvGet (kvSet kv k v) k = some v := by
  unfold kvSet
  by_cases h : kv.any (fun p => p.1 == k) = true
  · rw [if_pos h]
    exact find?_kvmap kv k v h
  · rw [if_neg h]
    exact find?_append_single kv k v (Bool.eq_false_iff.mpr h)

theorem mem_kvKeys_kvSet {kv : KV} {k v k' : String} (h : k' ∈ kvKeys (kvSet kv k v)) :
    k' ∈ kvKeys kv ∨ k' = k := by
  unfold kvSet at h
  split at h
  · unfold kvKeys at h ⊢
    rw [List.map_map] at h
    rcases List.mem_map.mp h with ⟨p, hp, hk⟩
    by_cases hpk : p.1 = k
    · right
      simpa [Function.comp, hpk] using hk.symm
    · left
      have : (p.1 == k) = false := by simp [hpk]
      exact List.mem_map.mpr ⟨p, hp, by simpa [Function.comp, this] using hk⟩
  · unfold kvKeys at h ⊢
    rw [List.map_append] at h
    rcases List.mem_append.mp h with h | h
    · exact Or.inl h
    · right
      simpa using h

theorem mem_kvKeys_kvDel {kv : KV} {k k' : String} (h : k' ∈ kvKeys (kvDel kv k)) :
    k' ∈ kvKeys kv := by
  unfold kvDel at h
  unfold kvKeys at h ⊢
  rcases List.mem_map.mp h with ⟨p, hp, hk⟩
  exact List.mem_map.mpr ⟨p, (List.mem_filter.mp hp).1, hk⟩

theorem mem_kvKeys_applyPem {f : String → String} {kv : KV} {k' : String}
    (h : k' ∈ kvKeys (applyPem f kv)) :
    k' ∈ kvKeys kv ∨ k' = ConnStrKeys.CERTIFICATE := by
  unfold applyPem at h
  split at h
  · rcases mem_kvKeys_kvSet (mem_kvKeys_kvDel h) with h | h
    · exact Or.inl h
    · exact Or.inr h
  · exact Or.inl h

/-! ### C6 -/

/-- C6: a connection string whose parsed key set (after the certificate
indirection) contains a key outside the union of all offered combinations
fails with the unknown-keys error, the ValueError kind of the source (the
ConnectionFormatError of the spec, distinct from the KqlEngineError kind),
and the error names exactly the offending keys; no resolved connection is
produced. -/
theorem c6_unknown_keys_format_error
    (conn_str uri_schema_name mandatory_key : String)
    (valid_keys_combinations : List (List String)) (current : Option KV)
    (prompt readFileFn : String → String) (kv0 : KV)
    (hparse : parse_and_get_kv_string (stripSchemaPart conn_str) = .ok kv0)
    (hunk : listDiff (kvKeys (applyPem readFileFn kv0)) (allKeysOf valid_keys_combinations) ≠ []) :
    resolveConnStr conn_str uri_schema_name mandatory_key valid_keys_combinations current
        prompt readFileFn
      = .error (.unknownKeys
          (listDiff (kvKeys (applyPem readFileFn kv0)) (allKeysOf valid_keys_combinations)))
    ∧ isConnectionFormatError
        (.unknownKeys
          (listDiff (kvKeys (applyPem readFileFn kv0)) (allKeysOf valid_keys_combinations))) = true
    ∧ isConnectionFormatError .noValidCombination = false
    ∧ (∀ l, isConnectionFormatError (.missingKeys l) = false) := by
  refine ⟨?_, rfl, rfl, fun l => rfl⟩
  unfold resolveConnStr
  rw [hparse]
  simp only [parse_common_connection_str]
  rw [if_pos hunk]

/-- C6, witness: the unknown key foo in foo://foo(x) is rejected with a
format error naming foo, against a registry whose only combination is the
database key. -/
theorem c6_unknown_keys_format_error_witness :
    parse_and_get_kv_string (stripSchemaPart c6Input) = .ok [("foo", "x")]
    ∧ resolveConnStr c6Input "foo" ConnStrKeys.DATABASE [[ConnStrKeys.DATABASE]] none noFn noFn
        = .error (.unknownKeys
            (listDiff (kvKeys (applyPem noFn [("foo", "x")])) (allKeysOf [[ConnStrKeys.DATABASE]]))) :=
  ⟨rfl,
   (c6_unknown_keys_format_error c6Input "foo" ConnStrKeys.DATABASE [[ConnStrKeys.DATABASE]]
      none noFn noFn [("foo", "x")] rfl (by decide)).1⟩

/-! ### C7 -/

/-- C7: once a combination containing clientid is selected, a missing tenant
value makes the resolution fail even though tenant is an Optional key: the
final stage always returns an error, and when every other required key of
the combination is matched (the missing set is empty) the error is exactly
the missing-tenant error of source line 177. -/
theorem c7_tenant_conditionally_mandatory
    (uri_schema_name mandatory_key : String) (prompt : String → String)
    (conn_keys_list conn_keys_set : List String) (kv : KV) (matched : List String)
    (hten : kvGet kv ConnStrKeys.TENANT = none)
    (hcli : ConnStrKeys.CLIENTID ∈ conn_keys_set) :
    (∃ e, checksAndFinish uri_schema_name mandatory_key prompt conn_keys_list conn_keys_set
        kv matched = .error e)
    ∧ (listDiff (listDiff (listDiff conn_keys_set matched) (listInter SECRET_KEYS conn_keys_set))
          OPTIONAL_KEYS = [] →
        checksAndFinish uri_schema_name mandatory_key prompt conn_keys_list conn_keys_set
          kv matched = .error .missingTenant) := by
  by_cases hms :
      listDiff (listDiff (listDiff conn_keys_set matched) (listInter SECRET_KEYS conn_keys_set))
        OPTIONAL_KEYS = []
  · have heq : checksAndFinish uri_schema_name mandatory_key prompt conn_keys_list conn_keys_set
        kv matched = .error .missingTenant := by
      simp only [checksAndFinish]
      rw [if_neg (by simpa using hms), if_pos ⟨hten, hcli⟩]
    exact ⟨⟨.missingTenant, heq⟩, fun _ => heq⟩
  · refine ⟨⟨.missingKeys
        (listDiff (listDiff (listDiff conn_keys_set matched) (listInter SECRET_KEYS conn_keys_set))
          OPTIONAL_KEYS), ?_⟩, fun h => absurd h hms⟩
    simp only [checksAndFinish]
    rw [if_pos hms]

/-- C7, witness: a combination of cluster, database, clientid and
certificate, fully matched but without a tenant value, fails with the
missing-tenant error. -/
theorem c7_tenant_conditionally_mandatory_witness :
    checksAndFinish "foo" ConnStrKeys.DATABASE noFn
        [ConnStrKeys.CLUSTER, ConnStrKeys.DATABASE, ConnStrKeys.CLIENTID, ConnStrKeys.CERTIFICATE]
        [ConnStrKeys.CLUSTER, ConnStrKeys.DATABASE, ConnStrKeys.CLIENTID, ConnStrKeys.CERTIFICATE]
        [(ConnStrKeys.CLUSTER, "c"), (ConnStrKeys.DATABASE, "d"), (ConnStrKeys.CLIENTID, "i"),
         (ConnStrKeys.CERTIFICATE, "x")]
        [ConnStrKeys.CLUSTER, ConnStrKeys.DATABASE, ConnStrKeys.CLIENTID, ConnStrKeys.CERTIFICATE]
      = .error .missingTenant :=
  (c7_tenant_conditionally_mandatory "foo" ConnStrKeys.DATABASE noFn
      [ConnStrKeys.CLUSTER, ConnStrKeys.DATABASE, ConnStrKeys.CLIENTID, ConnStrKeys.CERTIFICATE]
      [ConnStrKeys.CLUSTER, ConnStrKeys.DATABASE, ConnStrKeys.CLIENTID, ConnStrKeys.CERTIFICATE]
      [(ConnStrKeys.CLUSTER, "c"), (ConnStrKeys.DATABASE, "d"), (ConnStrKeys.CLIENTID, "i"),
       (ConnStrKeys.CERTIFICATE, "x")]
      [ConnStrKeys.CLUSTER, ConnStrKeys.DATABASE, ConnStrKeys.CLIENTID, ConnStrKeys.CERTIFICATE]
      rfl (by decide)).2 rfl

/-! ### C5 -/

/-- C5: the second inheritance pass of source lines 160-168.  When at most
one inheritable key of the selected combination is missing, nothing is
copied: the resolution continues on the unchanged dictionary and matched
set, independently of any prior connection.  When more than one such key is
missing and a prior connection exists, each is copied from the prior
connection when present there.  In particular a single missing cluster key
is never auto-filled and instead reaches the required-key check, which
fails naming cluster. -/
theorem c5_inherit_threshold
    (uri_schema_name mandatory_key : String) (current : Option KV)
    (prompt : String → String) (conn_keys_list : List String) (kv : KV)
    (matched : List String) :
    ((listDiff (listInter INHERITABLE_KEYS conn_keys_list.eraseDups) matched).length ≤ 1 →
      withCombination uri_schema_name mandatory_key current prompt conn_keys_list kv matched
        = checksAndFinish uri_schema_name mandatory_key prompt conn_keys_list
            conn_keys_list.eraseDups kv matched)
    ∧ (∀ cur, current = some cur →
        1 < (listDiff (listInter INHERITABLE_KEYS conn_keys_list.eraseDups) matched).length →
        withCombination uri_schema_name mandatory_key current prompt conn_keys_list kv matched
          = checksAndFinish uri_schema_name mandatory_key prompt conn_keys_list
              conn_keys_list.eraseDups
              (inheritFrom cur (listDiff (listInter INHERITABLE_KEYS conn_keys_list.eraseDups)
                matched) kv matched).1
              (inheritFrom cur (listDiff (listInter INHERITABLE_KEYS conn_keys_list.eraseDups)
                matched) kv matched).2)
    ∧ (listDiff (listInter INHERITABLE_KEYS conn_keys_list.eraseDups) matched
        = [ConnStrKeys.CLUSTER] →
        ∃ l, withCombination uri_schema_name mandatory_key current prompt conn_keys_list kv matched
          = .error (.missingKeys l) ∧ ConnStrKeys.CLUSTER ∈ l) := by
  refine ⟨?_, ?_, ?_⟩
  · intro h
    simp only [withCombination]
    rw [if_neg (by omega)]
  · intro cur hc h
    simp only [withCombination]
    rw [if_pos h, hc]
  · intro h
    have h1 : (listDiff (listInter INHERITABLE_KEYS conn_keys_list.eraseDups) matched).length ≤ 1 := by
      rw [h]
      simp
    have heq : withCombination uri_schema_name mandatory_key current prompt conn_keys_list kv matched
        = checksAndFinish uri_schema_name mandatory_key prompt conn_keys_list
            conn_keys_list.eraseDups kv matched := by
      simp only [withCombination]
      rw [if_neg (by omega)]
    have hmemik : ConnStrKeys.CLUSTER
        ∈ listDiff (listInter INHERITABLE_KEYS conn_keys_list.eraseDups) matched := by
      rw [h]
      exact List.mem_singleton.mpr rfl
    have hcks : ConnStrKeys.CLUSTER ∈ conn_keys_list.eraseDups :=
      (mem_listInter.mp (mem_listDiff.mp hmemik).1).2
    have hnm : ConnStrKeys.CLUSTER ∉ matched := (mem_listDiff.mp hmemik).2
    have hmem : ConnStrKeys.CLUSTER
        ∈ listDiff (listDiff (listDiff conn_keys_list.eraseDups matched)
            (listInter SECRET_KEYS conn_keys_list.eraseDups)) OPTIONAL_KEYS := by
      refine mem_listDiff.mpr ⟨mem_listDiff.mpr ⟨mem_listDiff.mpr ⟨hcks, hnm⟩, ?_⟩, ?_⟩
      · intro hsec
        exact absurd (mem_listInter.mp hsec).1 (by decide)
      · decide
    refine ⟨listDiff (listDiff (listDiff conn_keys_list.eraseDups matched)
        (listInter SECRET_KEYS conn_keys_list.eraseDups)) OPTIONAL_KEYS, ?_, hmem⟩
    rw [heq]
    simp only [checksAndFinish]
    rw [if_pos (List.ne_nil_of_mem hmem)]

/-- C5, witness: with the combination cluster-database, a matched database
and a prior connection holding a cluster value, the single missing cluster
key is not inherited and the resolution fails naming cluster. -/
theorem c5_inherit_threshold_witness :
    ∃ l, withCombination "foo" ConnStrKeys.DATABASE
        (some [(ConnStrKeys.CLUSTER, "c0")]) noFn
        [ConnStrKeys.CLUSTER, ConnStrKeys.DATABASE]
        [(ConnStrKeys.DATABASE, "d")] [ConnStrKeys.DATABASE]
      = .error (.missingKeys l) ∧ ConnStrKeys.CLUSTER ∈ l :=
  (c5_inherit_threshold "foo" ConnStrKeys.DATABASE (some [(ConnStrKeys.CLUSTER, "c0")]) noFn
      [ConnStrKeys.CLUSTER, ConnStrKeys.DATABASE] [(ConnStrKeys.DATABASE, "d")]
      [ConnStrKeys.DATABASE]).2.2 (by decide)

/-! ### Inversion lemmas on the finishing stages -/

theorem checksAndFinish_ok_combination {a b : String} {p : String → String}
    {ckl cks : List String} {kv : KV} {m : List String} {r : ResolveOk}
    (h : checksAndFinish a b p ckl cks kv m = .ok r) : r.combination = ckl := by
  simp only [checksAndFinish] at h
  repeat' split at h
  all_goals simp_all [mkResult]
  all_goals exact (congrArg ResolveOk.combination h.symm)

theorem withCombination_ok_combination {a b : String} {cur : Option KV} {p : String → String}
    {ckl : List String} {kv : KV} {m : List String} {r : ResolveOk}
    (h : withCombination a b cur p ckl kv m = .ok r) : r.combination = ckl := by
  simp only [withCombination] at h
  exact checksAndFinish_ok_combination h

/-! ### C4 -/

/-- C4: when more than one candidate combination remains (source lines
148-156), the resolver keeps a candidate with exactly 3 keys when one
exists — every successful outcome of this stage carries a single selected
combination that is among the candidates and has exactly 3 keys — and when
no candidate has exactly 3 keys the stage fails with the KqlEngineError of
line 156 (the ConnectionResolutionError kind). -/
theorem c4_three_key_tie_break
    (uri_schema_name mandatory_key : String) (current : Option KV) (prompt : String → String)
    (valid_combinations : List (List String)) (kv : KV) (matched : List String)
    (h : 1 < valid_combinations.length) :
    ((valid_combinations.filter (fun c => c.length = 3)) = [] →
      afterMerge uri_schema_name mandatory_key current prompt valid_combinations kv matched
        = .error .noValidCombination)
    ∧ (∀ r, afterMerge uri_schema_name mandatory_key current prompt valid_combinations kv matched
          = .ok r →
        r.combination ∈ valid_combinations ∧ r.combination.length = 3) := by
  constructor
  · intro hf
    simp only [afterMerge]
    rw [if_neg (by omega), if_pos h, hf]
    rfl
  · intro r hr
    simp only [afterMerge] at hr
    rw [if_neg (by omega), if_pos h] at hr
    cases hg : (valid_combinations.filter (fun c => c.length = 3)).getLast? with
    | none =>
      rw [hg] at hr
      simp at hr
    | some ckl =>
      rw [hg] at hr
      have hc : r.combination = ckl := withCombination_ok_combination hr
      have hmem : ckl ∈ valid_combinations.filter (fun c => c.length = 3) := by
        rcases List.mem_getLast?_eq_getLast (show ckl ∈ _ from hg) with ⟨hne, heq⟩
        rw [heq]
        exact List.getLast_mem hne
      have hsp := List.mem_filter.mp hmem
      refine ⟨hc ▸ hsp.1, hc ▸ ?_⟩
      exact of_decide_eq_true hsp.2

/-- C4, witness: among two ambiguous candidates with 2 and 4 keys, no
candidate has exactly 3 keys and the stage fails with the resolution
error. -/
theorem c4_three_key_tie_break_witness :
    afterMerge "foo" ConnStrKeys.DATABASE none noFn
        [[ConnStrKeys.TENANT, ConnStrKeys.USERNAME],
         [ConnStrKeys.TENANT, ConnStrKeys.USERNAME, ConnStrKeys.CLUSTER, ConnStrKeys.DATABASE]]
        [] []
      = .error .noValidCombination :=
  (c4_three_key_tie_break "foo" ConnStrKeys.DATABASE none noFn
      [[ConnStrKeys.TENANT, ConnStrKeys.USERNAME],
       [ConnStrKeys.TENANT, ConnStrKeys.USERNAME, ConnStrKeys.CLUSTER, ConnStrKeys.DATABASE]]
      [] [] (by decide)).1 (by decide)

/-! ### Merge-pass lemmas -/

theorem mem_mergeCurrent_keys (cur kv : KV) (m : List String) (k : String) :
    k ∈ (mergeCurrent cur kv m).2
      ↔ k ∈ m ∨ (k ∈ kvKeys cur ∧ k ∉ NOT_INHERITABLE_KEYS) := by
  unfold mergeCurrent
  induction cur generalizing kv m with
  | nil => simp [kvKeys]
  | cons p t ih =>
    simp only [List.foldl_cons]
    by_cases hp : p.1 ∉ m ∧ p.1 ∉ NOT_INHERITABLE_KEYS
    · rw [if_pos hp, ih]
      simp only [kvKeys, List.map_cons, List.mem_cons, List.mem_append, List.mem_singleton,
        List.not_mem_nil, or_false]
      constructor
      · rintro ((h | h) | ⟨h1, h2⟩)
        · exact Or.inl h
        · exact Or.inr ⟨Or.inl h, by rw [h]; exact hp.2⟩
        · exact Or.inr ⟨Or.inr h1, h2⟩
      · rintro (h | ⟨h1 | h1, h2⟩)
        · exact Or.inl (Or.inl h)
        · exact Or.inl (Or.inr h1)
        · exact Or.inr ⟨h1, h2⟩
    · rw [if_neg hp, ih]
      simp only [kvKeys, List.map_cons, List.mem_cons]
      push_neg at hp
      constructor
      · rintro (h | ⟨h1, h2⟩)
        · exact Or.inl h
        · exact Or.inr ⟨Or.inr h1, h2⟩
      · rintro (h | ⟨h1 | h1, h2⟩)
        · exact Or.inl h
        · have hm : p.1 ∈ m := by
            by_contra hn
            rw [h1] at h2
            exact h2 (hp hn)
          exact Or.inl (by rw [h1]; exact hm)
        · exact Or.inr ⟨h1, h2⟩

theorem checksAndFinish_ne_credentialConflict (a b : String) (p : String → String)
    (ckl cks : List String) (kv : KV) (m : List String) :
    checksAndFinish a b p ckl cks kv m ≠ .error .credentialConflict := by
  simp only [checksAndFinish]
  repeat' split
  all_goals simp

theorem withCombination_ne_credentialConflict (a b : String) (cur : Option KV)
    (p : String → String) (ckl : List String) (kv : KV) (m : List String) :
    withCombination a b cur p ckl kv m ≠ .error .credentialConflict := by
  simp only [withCombination]
  exact checksAndFinish_ne_credentialConflict _ _ _ _ _ _ _

theorem afterMerge_ne_credentialConflict (a b : String) (cur : Option KV)
    (p : String → String) (vc : List (List String)) (kv : KV) (m : List String) :
    afterMerge a b cur p vc kv m ≠ .error .credentialConflict := by
  simp only [afterMerge]
  split
  · simp
  · split
    · simp
    · exact withCombination_ne_credentialConflict _ _ _ _ _ _ _

/-! ### C2 -/

/-- C2, counterexample: schema foo, ambiguous candidates
database-username-password-cluster and database-username-password, prior
connection holding database d0 and password p0, input keys database d1 and
username u.  The username credential is present in the merged set but
absent from the prior connection, and every credential present in both has
equal values (password p0 is inherited), so by the claim the resolution
should proceed (and would succeed, selecting the 3-key combination).  The
code instead fails: line 138 compares the username value against
current get, which yields None, and None differs from every string. -/
theorem c2_absent_credential_conflicts :
    parse_common_connection_str "foo" ConnStrKeys.DATABASE c2combos (some c2cur) noFn noFn c2kv
      = .error .credentialConflict := by
  rfl

/-- C2, amended: with more than one candidate and a prior connection, every
key of the prior connection absent from the parsed set and not
NotInheritable is merged into the parsed set; resolution then fails exactly
when some Credential key of the merged set has a value differing from the
value the prior connection holds for that key, where absence from the prior
connection counts as a differing value (None) — so a credential present in
the merged set but absent from the prior connection does cause failure —
and otherwise the candidates are re-filtered by subset of the merged key
set and resolution continues on the merged state. -/
theorem c2_amended_merge_pass
    (uri_schema_name mandatory_key : String) (cur : KV) (prompt : String → String)
    (valid_combinations : List (List String)) (kv : KV) (matched : List String)
    (hambig : 1 < valid_combinations.length) :
    (∀ k, k ∈ (mergeCurrent cur kv matched).2
        ↔ k ∈ matched ∨ (k ∈ kvKeys cur ∧ k ∉ NOT_INHERITABLE_KEYS))
    ∧ (afterFilter uri_schema_name mandatory_key (some cur) prompt valid_combinations kv matched
          = .error .credentialConflict
        ↔ credentialConflictExists cur (mergeCurrent cur kv matched).1
            (mergeCurrent cur kv matched).2 = true)
    ∧ (credentialConflictExists cur (mergeCurrent cur kv matched).1
          (mergeCurrent cur kv matched).2 = false →
        afterFilter uri_schema_name mandatory_key (some cur) prompt valid_combinations kv matched
          = afterMerge uri_schema_name mandatory_key (some cur) prompt
              (valid_combinations.filter (fun c => subsetOf (mergeCurrent cur kv matched).2 c))
              (mergeCurrent cur kv matched).1 (mergeCurrent cur kv matched).2) := by
  refine ⟨mem_mergeCurrent_keys cur kv matched, ?_, ?_⟩
  · cases hcc : credentialConflictExists cur (mergeCurrent cur kv matched).1
        (mergeCurrent cur kv matched).2 with
    | true =>
      simp only [afterFilter]
      rw [if_pos hambig]
      simp [hcc]
    | false =>
      simp only [afterFilter]
      rw [if_pos hambig]
      simp only [hcc, Bool.false_eq_true, if_false, iff_false]
      exact afterMerge_ne_credentialConflict _ _ _ _ _ _ _
  · intro hcc
    simp only [afterFilter]
    rw [if_pos hambig]
    simp only [hcc, Bool.false_eq_true, if_false]

/-- C2, witness: on the counterexample instance the merge produces the
conflict condition and the resolver stops with the credential-conflict
error. -/
theorem c2_amended_merge_pass_witness :
    afterFilter "foo" ConnStrKeys.DATABASE (some c2cur) noFn
        (c2combos.filter (fun c => subsetOf (kvKeys c2kv) c)) c2kv (kvKeys c2kv)
      = .error .credentialConflict :=
  (c2_amended_merge_pass "foo" ConnStrKeys.DATABASE c2cur noFn
      (c2combos.filter (fun c => subsetOf (kvKeys c2kv) c)) c2kv (kvKeys c2kv)
      (by decide)).2.1.mpr (by decide)

/-! ### C8 -/

theorem fmtItem_mem_urlParts (conn_keys_list : List String) (kv : KV) (k : String)
    (h1 : k ∈ conn_keys_list) (h2 : k ∉ EXCLUDE_FROM_URL_KEYS) :
    fmtItem k (pyStrOpt (kvGet kv k)) ∈ urlParts conn_keys_list kv :=
  List.mem_map.mpr ⟨k, List.mem_filter.mpr ⟨h1, by simpa using h2⟩, rfl⟩

/-- C8: behaviour of the secret-completion step (source lines 193-199) on
every successful finishing run.  When the selected combination holds
exactly one Secret key and that key is unmatched or carries its own
placeholder value, the prompt collaborator is invoked exactly once, with a
message built around the composed connection name (alias-or-database at
cluster); the returned value is stored in the result dictionary, and when
the key is not ExcludeFromUrl it is rendered into the bind URL fragments.
With zero or several Secret keys, or a secret already carrying a real
value, no prompt is ever issued. -/
theorem c8_secret_prompt_behavior
    (uri_schema_name mandatory_key : String) (prompt : String → String)
    (conn_keys_list conn_keys_set : List String) (kv : KV) (matched : List String)
    (r : ResolveOk) (s name : String)
    (hok : checksAndFinish uri_schema_name mandatory_key prompt conn_keys_list conn_keys_set
        kv matched = .ok r)
    (hs : s = (listInter SECRET_KEYS conn_keys_set).headD "")
    (hname : name = connName (kvGet kv ConnStrKeys.ALIAS) (kvGet kv mandatory_key)
        (pyOr (kvGet kv ConnStrKeys.CLUSTER) uri_schema_name)) :
    ((listInter SECRET_KEYS conn_keys_set).length = 1 →
      (s ∉ matched ∨ kvGet kv s = some (placeholder s)) →
        r.prompts = [promptMsg name s]
        ∧ kvGet r.parsed_conn s = some (prompt (promptMsg name s))
        ∧ (s ∉ EXCLUDE_FROM_URL_KEYS → s ∈ conn_keys_list →
            fmtItem s (prompt (promptMsg name s)) ∈ urlParts conn_keys_list r.parsed_conn))
    ∧ ((listInter SECRET_KEYS conn_keys_set).length = 1 →
        ¬(s ∉ matched ∨ kvGet kv s = some (placeholder s)) → r.prompts = [])
    ∧ ((listInter SECRET_KEYS conn_keys_set).length ≠ 1 → r.prompts = []) := by
  subst hs hname
  simp only [checksAndFinish] at hok
  split at hok
  · exact absurd hok (by simp)
  · split at hok
    · exact absurd hok (by simp)
    · split at hok
      · split at hok <;> exact absurd hok (by simp)
      · split at hok
        next hlen =>
          split at hok
          next hcond =>
            split at hok
            next hgood =>
              rw [Except.ok.injEq] at hok
              subst hok
              refine ⟨fun _ _ => ⟨rfl, ?_, ?_⟩, fun _ hc => absurd hcond hc,
                fun hne => absurd hlen hne⟩
              · simp only [mkResult]
                exact kvGet_kvSet_self ..
              · intro hex hmem
                simp only [mkResult]
                have hu := fmtItem_mem_urlParts conn_keys_list
                  (kvSet kv ((listInter SECRET_KEYS conn_keys_set).headD "")
                    (prompt (promptMsg (connName (kvGet kv ConnStrKeys.ALIAS)
                      (kvGet kv mandatory_key) (pyOr (kvGet kv ConnStrKeys.CLUSTER)
                        uri_schema_name)) ((listInter SECRET_KEYS conn_keys_set).headD ""))))
                  ((listInter SECRET_KEYS conn_keys_set).headD "") hmem hex
                rwa [kvGet_kvSet_self] at hu
            next hbad => exact absurd hok (by simp)
          next hcond =>
            rw [Except.ok.injEq] at hok
            subst hok
            exact ⟨fun _ hc => absurd hc hcond, fun _ _ => rfl, fun hne => absurd hlen hne⟩
        next hlen =>
          rw [Except.ok.injEq] at hok
          subst hok
          exact ⟨fun h1 _ => absurd h1 hlen, fun h1 _ => absurd h1 hlen, fun _ => rfl⟩

/-- C8, witness: on the combination cluster-database-username-password with
the password unmatched, the run succeeds, the prompt fires once with the
connection name d1 at c1 in the message, and the supplied value pw is
stored and rendered into the URL fragments. -/
theorem c8_secret_prompt_behavior_witness :
    c8result.prompts = [promptMsg "d1@c1" ConnStrKeys.PASSWORD]
    ∧ kvGet c8result.parsed_conn ConnStrKeys.PASSWORD
        = some (pwPrompt (promptMsg "d1@c1" ConnStrKeys.PASSWORD))
    ∧ fmtItem ConnStrKeys.PASSWORD (pwPrompt (promptMsg "d1@c1" ConnStrKeys.PASSWORD))
        ∈ urlParts c8ckl c8result.parsed_conn :=
  have h := (c8_secret_prompt_behavior "foo" ConnStrKeys.DATABASE pwPrompt c8ckl c8ckl c8kv
      (kvKeys c8kv) c8result ConnStrKeys.PASSWORD "d1@c1" rfl rfl rfl).1 (by decide) (by decide)
  ⟨h.1, h.2.1, h.2.2 (by decide) (by decide)⟩

/-! ### C3 -/

/-- C3, counterexample: the amended C1 run succeeds with bind URL
foo://username(u).password(p), but resolving that very bind URL with the
same schema, registry, prior connection (none) and tokenizer does not
reproduce it: the database key is in `_EXCLUDE_FROM_URL_KEYS`, so the bind
URL never carries the mandatory key and re-resolution fails the
mandatory-key check of source line 125. -/
theorem c3_bind_url_not_idempotent :
    (resolveConnStr c1Input "foo" ConnStrKeys.DATABASE combosAmendedExample none noFn noFn).map
        (fun r => r.bind_url) = .ok c3BindUrl
    ∧ resolveConnStr c3BindUrl "foo" ConnStrKeys.DATABASE combosAmendedExample none noFn noFn
        = .error (.mandatoryMissing ConnStrKeys.DATABASE) :=
  ⟨rfl, rfl⟩

/-- C3, amended: resolution is not idempotent on bind URLs whenever the
mandatory key is an ExcludeFromUrl key (as database is): for every
successful resolution, re-resolving its bind_url string fails with some
error, because the tokenizer can only recover keys rendered into the URL
(hypothesis h3 states this round-trip soundness) and the mandatory key is
never rendered. -/
theorem c3_amended_reresolve_fails
    (uri_schema_name mandatory_key : String) (combos : List (List String)) (current : Option KV)
    (prompt readFileFn : String → String) (kv0 : KV) (r : ResolveOk) (kvr : KV)
    (h1 : parse_common_connection_str uri_schema_name mandatory_key combos current prompt
        readFileFn kv0 = .ok r)
    (hm : mandatory_key ∈ EXCLUDE_FROM_URL_KEYS)
    (h2 : parse_and_get_kv_string (stripSchemaPart r.bind_url) = .ok kvr)
    (h3 : (kvKeys kvr).all (fun k =>
        decide (k ∈ r.combination.filter (fun x => decide (x ∉ EXCLUDE_FROM_URL_KEYS)))) = true) :
    ∃ e, resolveConnStr r.bind_url uri_schema_name mandatory_key combos current prompt readFileFn
      = .error e := by
  have hmkv : mandatory_key ∉ kvKeys kvr := by
    intro hmem
    have hal := List.all_eq_true.mp h3 mandatory_key hmem
    have hfl := of_decide_eq_true hal
    have hnx := (List.mem_filter.mp hfl).2
    exact absurd hm (of_decide_eq_true hnx)
  have hcert : mandatory_key ≠ ConnStrKeys.CERTIFICATE := by
    have hdm : mandatory_key = ConnStrKeys.DATABASE ∨ mandatory_key = ConnStrKeys.ALIAS := by
      simpa [EXCLUDE_FROM_URL_KEYS] using hm
    rcases hdm with h | h <;> (rw [h]; decide)
  have hmand : mandatory_key ∉ kvKeys (applyPem readFileFn kvr) := by
    intro hmem
    rcases mem_kvKeys_applyPem hmem with h | h
    · exact hmkv h
    · exact hcert h
  unfold resolveConnStr
  rw [h2]
  simp only [parse_common_connection_str]
  by_cases hu : listDiff (kvKeys (applyPem readFileFn kvr)) (allKeysOf combos) ≠ []
  · exact ⟨.unknownKeys (listDiff (kvKeys (applyPem readFileFn kvr)) (allKeysOf combos)),
      by rw [if_pos hu]⟩
  · refine ⟨.mandatoryMissing mandatory_key, ?_⟩
    rw [if_neg hu, if_pos hmand]

/-- C3, witness: the amended C1 run satisfies every hypothesis, and
re-resolving its bind URL indeed fails. -/
theorem c3_amended_reresolve_fails_witness :
    ∃ e, resolveConnStr c3okResult.bind_url "foo" ConnStrKeys.DATABASE combosAmendedExample
        none noFn noFn = .error e :=
  c3_amended_reresolve_fails "foo" ConnStrKeys.DATABASE combosAmendedExample none noFn noFn
    c3kv0 c3okResult [(ConnStrKeys.USERNAME, "u"), (ConnStrKeys.PASSWORD, "p")]
    rfl (by decide) rfl (by decide)
